import Mathlib

/-!
Verification of the ws-gateway request/response tunnelling engine.

The development shallowly embeds the Server's WebSocket manager
(`src/server/src/websocket/server.py`), the Server's HTTP entry point
(`src/server/src/api/routes.py`) and the Proxy's message pump
(`src/client/src/ws_client/proxy.py`).  Python dicts become association
lists with first-occurrence lookup and in-place update; JSON values become
an inductive type; the asynchronous wait in send-and-wait is modelled by
the list of kiosk replies processed by the receive loop before the
timeout fires; fallible sends are modelled by a boolean oracle.
-/

namespace WsGateway

/-- JSON values as exchanged on the tunnel.  Objects are association lists;
lookup takes the first binding, matching Python dicts whose keys are unique. -/
inductive Json where
  | null : Json
  | bool : Bool → Json
  | num : Int → Json
  | str : String → Json
  | arr : List Json → Json
  | obj : List (String × Json) → Json

/-- Python truthiness of a parsed JSON value, as used by bare if-tests
in the source, such as the test rejecting a missing or empty request id. -/
def pyTruthy : Json → Bool
  | .null => false
  | .bool b => b
  | .num n => n != 0
  | .str s => s != ""
  | .arr xs => !xs.isEmpty
  | .obj fs => !fs.isEmpty

/-- Association-list lookup at the first occurrence of a key:
the embedding of a Python dict read. -/
def alGet {α : Type} : List (String × α) → String → Option α
  | [], _ => none
  | (k, v) :: rest, key => if k = key then some v else alGet rest key

/-- Association-list update: the embedding of a Python dict assignment,
updating the first occurrence in place or appending a new binding. -/
def alSet {α : Type} : List (String × α) → String → α → List (String × α)
  | [], key, v => [(key, v)]
  | (k, w) :: rest, key, v =>
    if k = key then (key, v) :: rest else (k, w) :: alSet rest key v

/-- Association-list deletion: the embedding of a Python del on a dict. -/
def alErase {α : Type} : List (String × α) → String → List (String × α)
  | [], _ => []
  | (k, w) :: rest, key =>
    if k = key then alErase rest key else (k, w) :: alErase rest key

/-- Field lookup on a JSON object; Python message.get of a key returns
None when the key is absent or the value is not an object. -/
def Json.get (j : Json) (key : String) : Option Json :=
  match j with
  | .obj fields => alGet fields key
  | _ => none

/-- A Python dict with string keys and JSON values (a tunnel envelope
under construction). -/
abbrev Dict := List (String × Json)

/-! ### Association-list lemmas shared by the claim proofs -/

theorem alGet_alSet_self {α : Type} (l : List (String × α)) (key : String) (v : α) :
    alGet (alSet l key v) key = some v := by
  induction l with
  | nil => simp [alSet, alGet]
  | cons p rest ih =>
    obtain ⟨k, w⟩ := p
    by_cases hk : k = key
    · simp [alSet, alGet, hk]
    · simp [alSet, alGet, hk, ih]

theorem alGet_alSet_ne {α : Type} (l : List (String × α)) (key k : String) (v : α)
    (h : k ≠ key) : alGet (alSet l key v) k = alGet l k := by
  have hkey : ¬ (key = k) := fun hh => h hh.symm
  induction l with
  | nil => simp [alSet, alGet, hkey]
  | cons p rest ih =>
    obtain ⟨k1, w⟩ := p
    by_cases hk : k1 = key
    · subst hk
      simp [alSet, alGet, hkey]
    · by_cases hk1 : k1 = k
      · subst hk1
        simp [alSet, alGet, hk]
      · simp [alSet, alGet, hk, hk1, ih]

theorem alGet_alErase_self {α : Type} (l : List (String × α)) (key : String) :
    alGet (alErase l key) key = none := by
  induction l with
  | nil => simp [alErase, alGet]
  | cons p rest ih =>
    obtain ⟨k, w⟩ := p
    by_cases hk : k = key
    · simpa [alErase, alGet, hk] using ih
    · simpa [alErase, alGet, hk] using ih

theorem alGet_alErase_ne {α : Type} (l : List (String × α)) (key k : String)
    (h : k ≠ key) : alGet (alErase l key) k = alGet l k := by
  induction l with
  | nil => simp [alErase, alGet]
  | cons p rest ih =>
    obtain ⟨k1, w⟩ := p
    by_cases hk : k1 = key
    · subst hk
      have hkk : ¬ (k1 = k) := fun hh => h hh.symm
      simpa [alErase, alGet, hkk] using ih
    · by_cases hk1 : k1 = k
      · subst hk1
        simp [alErase, alGet, hk]
      · simpa [alErase, alGet, hk, hk1] using ih

/-! ### Server model: WebSocketManager (src/server/src/websocket/server.py) -/

/-- An asyncio.Future held in the pending-responses table: either still
awaited or resolved with the kiosk reply envelope. -/
inductive FutureState where
  | pending : FutureState
  | done : Json → FutureState

/-- The pending-responses correlation table, request id to future. -/
abbrev PendingTable := List (String × FutureState)

/-- A WebSocket handle.  The wid distinguishes sockets; closedState is
whether client_state.name equals CLOSED, the liveness test used by the
duplicate-connection policy. -/
structure WS where
  wid : Nat
  closedState : Bool
deriving DecidableEq, Repr

/-- A close performed on a socket: target, close code and reason (code
and reason are absent for the bare close of a dead duplicate). -/
structure CloseAct where
  target : WS
  code : Option Nat
  reason : Option String
deriving DecidableEq, Repr

/-- The mutable state of the WebSocketManager together with the slice of
the Registry that the connection lifecycle touches: active connections,
pending responses, and the set of kiosks marked online in the store. -/
structure ServerState where
  active_connections : List (String × WS)
  pending_responses : PendingTable
  online : List String

/-- Registry set_kiosk_online: add the kiosk to the online set (sadd). -/
def markOnline (online : List String) (kiosk_id : String) : List String :=
  if online.contains kiosk_id then online else online ++ [kiosk_id]

/-- WebSocketManager.handle_kiosk_message, acting on the pending table:
extract request_id from the reply; if it is missing or falsy, drop the
reply; if it names a pending future, resolve that future with the whole
reply envelope; otherwise drop.  A reply whose request_id is not a string
never matches a table key (table keys are the minted uuid strings).
Non-object frames carry no request_id field and leave the table
unchanged (in the source they additionally terminate that receive loop,
which does not affect the table). -/
def handle_kiosk_message (tbl : PendingTable) (message : Json) : PendingTable :=
  match message.get "request_id" with
  | none => tbl
  | some rid =>
    if ¬ pyTruthy rid then tbl
    else
      match rid with
      | .str s =>
        match alGet tbl s with
        | some .pending => alSet tbl s (.done message)
        | _ => tbl
      | _ => tbl

/-- WebSocketManager.is_connected. -/
def is_connected (st : ServerState) (kiosk_id : String) : Bool :=
  (alGet st.active_connections kiosk_id).isSome

/-- WebSocketManager.send_and_wait.  rid is the uuid4 minted for the call
(theorems carry its freshness as a hypothesis); sendOk is whether
websocket.send_json succeeded; msgs are the kiosk replies the receive
loop handed to handle_kiosk_message before the wait ended.  Returns the
call result, the state after the finally block, and the caller's message
dict after the call (the source mutates it in place). -/
def send_and_wait (st : ServerState) (kiosk_id : String) (message : Dict)
    (rid : String) (sendOk : Bool) (msgs : List Json) :
    Option Json × ServerState × Dict :=
  match alGet st.active_connections kiosk_id with
  | none => (none, st, message)
  | some _ =>
    let message1 := alSet message "request_id" (.str rid)
    let tbl1 := alSet st.pending_responses rid .pending
    if ¬ sendOk then
      (none, { st with pending_responses := alErase tbl1 rid }, message1)
    else
      let tbl2 := msgs.foldl handle_kiosk_message tbl1
      match alGet tbl2 rid with
      | some (.done r) =>
        (some r, { st with pending_responses := alErase tbl2 rid }, message1)
      | _ =>
        (none, { st with pending_responses := alErase tbl2 rid }, message1)

/-- WebSocketManager.connect: register a new socket for kiosk_id under the
duplicate policy.  Returns whether the connection was accepted, the new
state, and the closes performed. -/
def connect (allowDup : Bool) (st : ServerState) (websocket : WS) (kiosk_id : String) :
    Bool × ServerState × List CloseAct :=
  match alGet st.active_connections kiosk_id with
  | some old_websocket =>
    if allowDup then
      let active1 := alErase st.active_connections kiosk_id
      (true,
       { st with active_connections := alSet active1 kiosk_id websocket,
                 online := markOnline st.online kiosk_id },
       [⟨old_websocket, some 1000, some "Replaced by new connection"⟩])
    else if ¬ old_websocket.closedState then
      (false, st, [⟨websocket, some 1008, some "Kiosk already connected"⟩])
    else
      let active1 := alErase st.active_connections kiosk_id
      (true,
       { st with active_connections := alSet active1 kiosk_id websocket,
                 online := markOnline st.online kiosk_id },
       [⟨old_websocket, none, none⟩])
  | none =>
    (true,
     { st with active_connections := alSet st.active_connections kiosk_id websocket,
               online := markOnline st.online kiosk_id },
     [])

/-- The outcome of the handshake part of handle_websocket: a pre-accept
policy-violation close (code 1008), a rejection by connect, or accept. -/
inductive HandshakeOutcome where
  | policyViolation : String → HandshakeOutcome
  | rejectedDuplicate : HandshakeOutcome
  | accepted : HandshakeOutcome
deriving DecidableEq, Repr

/-- The external collaborators consulted by the handshake and the /send
route: jwt verification and the kiosk Registry reads. -/
structure AuthEnv where
  verifyToken : String → Option String
  kioskExists : String → Bool
  kioskEnabled : String → Bool
  storedToken : String → Option String

/-- WebSocketManager.handle_websocket up to the accept decision: verify
the token, check existence, enabled flag and stored token, then call
connect.  Every rejection raises or returns before the receive loop, so
the finally-disconnect never runs on these paths. -/
def handle_websocket_handshake (env : AuthEnv) (allowDup : Bool) (st : ServerState)
    (websocket : WS) (tok : String) :
    HandshakeOutcome × ServerState × List CloseAct :=
  match env.verifyToken tok with
  | none => (.policyViolation "Invalid token", st, [])
  | some kiosk_id =>
    if kiosk_id = "" then (.policyViolation "Invalid token", st, [])
    else if ¬ env.kioskExists kiosk_id then (.policyViolation "Kiosk not found", st, [])
    else if ¬ env.kioskEnabled kiosk_id then (.policyViolation "Kiosk disabled", st, [])
    else if ¬ (env.storedToken kiosk_id = some tok) then
      (.policyViolation "Token mismatch", st, [])
    else
      match connect allowDup st websocket kiosk_id with
      | (true, st1, acts) => (.accepted, st1, acts)
      | (false, st1, acts) => (.rejectedDuplicate, st1, acts)

/-! ### Server model: the /send route (src/server/src/api/routes.py) -/

/-- The sensitive header names whose values are redacted before being
forwarded over the tunnel. -/
def SENSITIVE_HEADERS : List String :=
  ["authorization", "cookie", "x-api-key", "x-auth-token", "api-key", "secret", "token"]

/-- Python str.lower on the character sequence (the header names involved
are ASCII). -/
def pyLower (s : String) : String := String.mk (s.data.map Char.toLower)

/-- The headers_dict comprehension of send_message: keep every key,
replace the value by the redaction literal when the lowercased key is
sensitive.  The incoming keys are the ASGI request headers, which the
transport delivers lowercased (Starlette exposes scope headers whose
names the ASGI spec requires to be lowercase). -/
def redactHeaders (headers : List (String × String)) : List (String × String) :=
  headers.map fun p =>
    (p.1, if SENSITIVE_HEADERS.contains (pyLower p.1) then "***REDACTED***" else p.2)

/-- A string-to-string map rendered as a JSON object. -/
def headersJson (headers : List (String × String)) : Json :=
  .obj (headers.map fun p => (p.1, .str p.2))

/-- Result of the /send route: HTTP 400 for a missing kiosk header,
otherwise HTTP 200 with a JSON body. -/
inductive HttpResult where
  | badRequest : String → HttpResult
  | ok : Json → HttpResult

/-- A structured in-band error body of the /send route. -/
def sendErrBody (tag kiosk_id : String) : Json :=
  .obj [("status", .str "error"), ("error", .str tag), ("kiosk_id", .str kiosk_id)]

/-- The /send route handler send_message.  reqHeaders are the incoming
request headers (lowercase names, per ASGI); body is the parsed JSON
request body; rid, sendOk and msgs parameterise the inner send_and_wait
call as above.  Returns the HTTP result, the state after the call, and
the envelope dict that was forwarded over the tunnel. -/
def send_message (env : AuthEnv) (st : ServerState)
    (reqHeaders : List (String × String)) (body : Json)
    (rid : String) (sendOk : Bool) (msgs : List Json) :
    HttpResult × ServerState × Dict :=
  match alGet reqHeaders "header-kiosk-id" with
  | none => (.badRequest "Missing Header-Kiosk-Id header", st, [])
  | some kiosk_id =>
    if kiosk_id = "" then (.badRequest "Missing Header-Kiosk-Id header", st, [])
    else if ¬ env.kioskExists kiosk_id then (.ok (sendErrBody "kiosk_not_found" kiosk_id), st, [])
    else if ¬ env.kioskEnabled kiosk_id then (.ok (sendErrBody "kiosk_disabled" kiosk_id), st, [])
    else if ¬ is_connected st kiosk_id then (.ok (sendErrBody "kiosk_offline" kiosk_id), st, [])
    else
      let full_request : Dict :=
        [("headers", headersJson (redactHeaders reqHeaders)), ("body", body)]
      match send_and_wait st kiosk_id full_request rid sendOk msgs with
      | (none, st1, sent) => (.ok (sendErrBody "timeout" kiosk_id), st1, sent)
      | (some response, st1, sent) => (.ok response, st1, sent)

/-! ### Proxy model: PaymentGatewayProxy (src/client/src/ws_client/proxy.py) -/

/-- A route entry of the routing config: gateway URL and timeout. -/
structure Route where
  url : String
  timeout : Nat
deriving DecidableEq, Repr

/-- PaymentGatewayProxy._get_gateway_route: exact match on the operation
type, else the default route, else none.  A non-string operation value
never matches a routes key. -/
def get_gateway_route (routes : List (String × Route)) (default_route : Option Route)
    (operation_type : Json) : Option Route :=
  match operation_type with
  | .str s =>
    match alGet routes s with
    | some r => some r
    | none => default_route
  | _ => default_route

/-- What the HTTP call to the local gateway did: a response with status
code, parsed JSON body and text body, a timeout, a connection failure,
or another exception. -/
inductive GatewayOutcome where
  | httpResponse : Nat → Json → String → GatewayOutcome
  | timedOut : GatewayOutcome
  | connectRefused : String → GatewayOutcome
  | otherExc : String → GatewayOutcome

/-- PaymentGatewayProxy._handle_gateway_response: return the parsed JSON
body when the status code is 200, otherwise wrap it as http_error. -/
def handle_gateway_response (status : Nat) (jsonBody : Json) (textBody : String) : Json :=
  if status = 200 then jsonBody
  else
    .obj [("status", .str "error"), ("error", .str "http_error"),
          ("message", .str ("HTTP " ++ toString status ++ ": " ++ textBody))]

/-- PaymentGatewayProxy.send_to_gateway: dispatch to the gateway and map
the outcome; exceptions become the uniform error envelopes. -/
def send_to_gateway (outcome : GatewayOutcome) (gateway_timeout : Nat) : Json :=
  match outcome with
  | .httpResponse status jsonBody textBody => handle_gateway_response status jsonBody textBody
  | .timedOut =>
    .obj [("status", .str "error"), ("error", .str "timeout"),
          ("message", .str ("Gateway timeout after " ++ toString gateway_timeout ++ "s"))]
  | .connectRefused e =>
    .obj [("status", .str "error"), ("error", .str "connection_refused"),
          ("message", .str ("Cannot connect to gateway: " ++ e))]
  | .otherExc e =>
    .obj [("status", .str "error"), ("error", .str "other"), ("message", .str e)]

/-- The inbound frame after json.loads: the parsed value, or the decode
error text when parsing raised. -/
inductive ParsedFrame where
  | ok : Json → ParsedFrame
  | parseError : String → ParsedFrame

/-- Python str rendering of a parsed JSON value, used only inside error
message texts of the message pump. -/
def pyText : Json → String
  | .null => "None"
  | .bool b => if b then "True" else "False"
  | .num n => toString n
  | .str s => s
  | .arr _ => "[...]"
  | .obj _ => "\x7b...\x7d"

/-- PaymentGatewayProxy.handle_message: the reply envelope the proxy
sends (or queues) for one inbound frame.  On a JSON parse failure the
reply is built without any request_id binding; otherwise request_id is
data.get of the key (null when absent), a falsy operation-type header
yields missing_header, a missing route yields route_not_found, and
otherwise the gateway response is sent with request_id set on it.
gatewayRun maps the forwarded body and the resolved route to the
outcome of the HTTP call. -/
def handle_message (frame : ParsedFrame) (routes : List (String × Route))
    (default_route : Option Route) (gatewayRun : Json → Route → GatewayOutcome) : Json :=
  match frame with
  | .parseError e =>
    .obj [("status", .str "error"), ("error", .str "invalid_json"),
          ("message", .str ("Failed to parse JSON: " ++ e))]
  | .ok data =>
    let request_id := (data.get "request_id").getD .null
    let headers := (data.get "headers").getD (.obj [])
    let opv := (headers.get "header-operation-type").getD .null
    if ¬ pyTruthy opv then
      .obj [("request_id", request_id), ("status", .str "error"),
            ("error", .str "missing_header"),
            ("message", .str "Header-Operation-Type is required")]
    else
      match get_gateway_route routes default_route opv with
      | none =>
        .obj [("request_id", request_id), ("status", .str "error"),
              ("error", .str "route_not_found"),
              ("message", .str ("No route configured for operation type: " ++ pyText opv))]
      | some route =>
        let body := (data.get "body").getD (.obj [])
        let response := send_to_gateway (gatewayRun body route) route.timeout
        match response with
        | .obj fields => .obj (alSet fields "request_id" request_id)
        | other => other

/-- asyncio.Queue.put_nowait on the bounded offline queue (capacity 10):
append at the tail, or drop the message when the queue is full. -/
def put_nowait (q : List String) (m : String) : List String :=
  if q.length < 10 then q ++ [m] else q

/-- PaymentGatewayProxy._flush_queue: pop from the front and send until
the queue is empty; on the first send failure, put the failed message
back with put_nowait and abort.  Returns the messages sent in order and
the final queue.  sendOk is the per-message send outcome. -/
def flush_queue (sendOk : String → Bool) : List String → List String × List String
  | [] => ([], [])
  | m :: rest =>
    if sendOk m then
      let res := flush_queue sendOk rest
      (m :: res.1, res.2)
    else
      ([], put_nowait rest m)

/-- The doubling-with-cap step of the reconnect delay in run. -/
def nextDelay (d : Nat) : Nat := min (d * 2) 60

/-- One iteration of the run loop: either connect_to_server failed, or it
succeeded (resetting the delay to 1) and the connection was later lost. -/
inductive ConnEvent where
  | connectFail : ConnEvent
  | connectedThenLost : ConnEvent
deriving DecidableEq, Repr

/-- The successive sleeps performed by the run loop, starting from the
current reconnect delay d: a failed connect sleeps d then doubles with
cap; a successful connect resets the delay to 1, so the loss that follows
sleeps 1 and then doubles from 1. -/
def runWaits (d : Nat) : List ConnEvent → List Nat
  | [] => []
  | .connectFail :: es => d :: runWaits (nextDelay d) es
  | .connectedThenLost :: es => 1 :: runWaits (nextDelay 1) es

/-- Modelled from the spec: the backoff sequence as the specification
states it, the wait after the k-th consecutive failure being the minimum
of 2 to the k and 60, restarting from the first power after every
successful connect. -/
def backoffSpecWaits (c : Nat) : List ConnEvent → List Nat
  | [] => []
  | .connectFail :: es => min (2 ^ c) 60 :: backoffSpecWaits (c + 1) es
  | .connectedThenLost :: es => 1 :: backoffSpecWaits 1 es

/-! ### Helper lemmas -/

theorem nextDelay_pow (c : Nat) : nextDelay (min (2 ^ c) 60) = min (2 ^ (c + 1)) 60 := by
  have hc : 2 ^ (c + 1) = 2 ^ c * 2 := pow_succ 2 c
  unfold nextDelay
  omega

theorem runWaits_spec (evs : List ConnEvent) :
    ∀ c, runWaits (min (2 ^ c) 60) evs = backoffSpecWaits c evs := by
  induction evs with
  | nil => intro c; rfl
  | cons e es ih =>
    intro c
    cases e with
    | connectFail =>
      show min (2 ^ c) 60 :: runWaits (nextDelay (min (2 ^ c) 60)) es =
        min (2 ^ c) 60 :: backoffSpecWaits (c + 1) es
      rw [nextDelay_pow, ih (c + 1)]
    | connectedThenLost =>
      show 1 :: runWaits (nextDelay 1) es = 1 :: backoffSpecWaits 1 es
      have h1 : nextDelay 1 = min (2 ^ 1) 60 := by decide
      rw [h1, ih 1]

/-! ### Claim theorems: Proxy side -/

/-- C6: the waits of the reconnection loop after consecutive connection
failures or lost connections are 1, 2, 4, 8, 16, 32, 60, 60, and so on:
the wait after the k-th consecutive failure is the minimum of 2 to the k
and 60, and every successful connect resets the delay to 1 second. -/
theorem backoff_sequence :
    (∀ evs : List ConnEvent, runWaits 1 evs = backoffSpecWaits 0 evs) ∧
    runWaits 1 (List.replicate 8 ConnEvent.connectFail) = [1, 2, 4, 8, 16, 32, 60, 60] := by
  constructor
  · intro evs
    have h := runWaits_spec evs 0
    simpa using h
  · decide

/-- C7 counterexample: with a queue holding m1 then m2 and every send
failing, the flush pops m1, fails, and put_nowait re-enqueues it at the
tail, leaving the queue m2 then m1: the failed message is NOT re-enqueued
at the head and the relative order of unsent messages is not preserved. -/
theorem flush_requeue_tail_cx :
    (flush_queue (fun _ => false) ["m1", "m2"]).2 = ["m2", "m1"] ∧
    ¬ (flush_queue (fun _ => false) ["m1", "m2"]).2 = ["m1", "m2"] := by
  decide

/-- C7 amended: the flush dequeues and sends in FIFO order; when every
send succeeds the queue is emptied; on the first failing send the failed
message is re-enqueued at the TAIL of the queue (capacity permitting)
and the flush aborts, leaving the not-yet-sent messages ahead of it. -/
theorem flush_queue_fifo (sendOk : String → Bool) :
    (∀ q, (∀ m ∈ q, sendOk m = true) → flush_queue sendOk q = (q, [])) ∧
    (∀ pre f rest, (∀ m ∈ pre, sendOk m = true) → sendOk f = false →
      flush_queue sendOk (pre ++ f :: rest) = (pre, put_nowait rest f)) := by
  constructor
  · intro q hq
    induction q with
    | nil => rfl
    | cons m rest ih =>
      have hm : sendOk m = true := hq m (by simp)
      have hrest := ih (fun x hx => hq x (by simp [hx]))
      simp [flush_queue, hm, hrest]
  · intro pre f rest hpre hf
    induction pre with
    | nil => simp [flush_queue, hf]
    | cons m ms ih =>
      have hm : sendOk m = true := hpre m (by simp)
      have hms := ih (fun x hx => hpre x (by simp [hx]))
      simp [flush_queue, hm, hms]

/-- C7 witness: one message sends, the next fails; the flush returns the
sent prefix and the aborted queue with the failed message at the tail. -/
theorem flush_queue_fifo_witness :
    flush_queue (fun m => m == "a") ["a", "b", "c"] = (["a"], ["c", "b"]) := by
  have h := (flush_queue_fifo (fun m => m == "a")).2 ["a"] "b" ["c"]
    (by decide) (by decide)
  exact h

/-- C8 counterexample: on an unparseable frame the proxy reply carries no
request_id binding at all, so it does not carry request_id null. -/
theorem invalid_json_cx :
    ((handle_message (.parseError "Expecting value") [] none
        (fun _ _ => GatewayOutcome.timedOut)).get "request_id" = none) ∧
    ¬ ((handle_message (.parseError "Expecting value") [] none
        (fun _ _ => GatewayOutcome.timedOut)).get "request_id" = some Json.null) := by
  refine ⟨rfl, fun h => ?_⟩
  simp [handle_message, Json.get, alGet] at h

/-- C8 amended: for every inbound frame the proxy cannot parse as JSON,
the reply envelope has status error and error tag invalid_json, and it
contains no request_id field at all (rather than request_id null). -/
theorem invalid_json_reply (e : String) (routes : List (String × Route))
    (dr : Option Route) (gw : Json → Route → GatewayOutcome) :
    ((handle_message (.parseError e) routes dr gw).get "status" = some (.str "error")) ∧
    ((handle_message (.parseError e) routes dr gw).get "error" = some (.str "invalid_json")) ∧
    ((handle_message (.parseError e) routes dr gw).get "request_id" = none) :=
  ⟨rfl, rfl, rfl⟩

/-- C5 counterexample: 201 is a 2xx status code, yet the gateway client
wraps the response as http_error instead of returning the parsed body. -/
theorem gateway_non200_cx :
    (200 ≤ 201 ∧ 201 < 300) ∧
    ¬ (handle_gateway_response 201 (Json.obj [("status", Json.str "ok")]) "created"
        = Json.obj [("status", Json.str "ok")]) := by
  refine ⟨by decide, fun h => ?_⟩
  simp [handle_gateway_response] at h

/-- C5 amended: the gateway client returns the parsed JSON body as-is
exactly for status code 200; every other status code (including other
2xx codes) maps to the http_error envelope with message HTTP code and
body; a gateway timeout maps to error timeout and a connection failure
to error connection_refused. -/
theorem gateway_response_mapping (status : Nat) (jsonBody : Json) (textBody : String)
    (t : Nat) (e : String) :
    (handle_gateway_response 200 jsonBody textBody = jsonBody) ∧
    (¬ status = 200 →
      handle_gateway_response status jsonBody textBody =
        Json.obj [("status", .str "error"), ("error", .str "http_error"),
                  ("message", .str ("HTTP " ++ toString status ++ ": " ++ textBody))]) ∧
    (send_to_gateway .timedOut t =
      Json.obj [("status", .str "error"), ("error", .str "timeout"),
                ("message", .str ("Gateway timeout after " ++ toString t ++ "s"))]) ∧
    (send_to_gateway (.connectRefused e) t =
      Json.obj [("status", .str "error"), ("error", .str "connection_refused"),
                ("message", .str ("Cannot connect to gateway: " ++ e))]) := by
  refine ⟨rfl, fun h => ?_, rfl, rfl⟩
  simp [handle_gateway_response, h]

/-- C5 witness: a 404 response is wrapped as http_error with the status
code and body in the message. -/
theorem gateway_response_mapping_witness :
    handle_gateway_response 404 (Json.obj []) "not found" =
      Json.obj [("status", .str "error"), ("error", .str "http_error"),
                ("message", .str "HTTP 404: not found")] := by
  have h := (gateway_response_mapping 404 (Json.obj []) "not found" 30 "x").2.1 (by decide)
  exact h

/-! ### Claim theorems: Server side -/

/-- One receive-loop step preserves the correlation invariant at the
minted id: the slot stays pending, or it is resolved with a reply whose
request_id field is exactly the minted id. -/
theorem handle_kiosk_message_inv (tbl : PendingTable) (msg : Json) (rid : String)
    (h : alGet tbl rid = some .pending ∨
      ∃ r, alGet tbl rid = some (.done r) ∧ r.get "request_id" = some (.str rid)) :
    alGet (handle_kiosk_message tbl msg) rid = some .pending ∨
      ∃ r, alGet (handle_kiosk_message tbl msg) rid = some (.done r) ∧
        r.get "request_id" = some (.str rid) := by
  unfold handle_kiosk_message
  cases hget : msg.get "request_id" with
  | none => simpa [hget] using h
  | some rv =>
    by_cases htr : pyTruthy rv = true
    · cases rv with
      | str s =>
        cases hs : alGet tbl s with
        | none => simpa [hget, htr, hs] using h
        | some fs =>
          cases fs with
          | pending =>
            by_cases hsr : s = rid
            · subst hsr
              right
              exact ⟨msg, by simp [hget, htr, hs, alGet_alSet_self], hget⟩
            · have hne : rid ≠ s := fun hh => hsr hh.symm
              rcases h with h | ⟨r, hr1, hr2⟩
              · left
                simpa [hget, htr, hs, alGet_alSet_ne _ _ _ _ hne] using h
              · right
                exact ⟨r, by simpa [hget, htr, hs, alGet_alSet_ne _ _ _ _ hne] using hr1, hr2⟩
          | done r0 => simpa [hget, htr, hs] using h
      | null => simpa [hget, htr] using h
      | bool b => simpa [hget, htr] using h
      | num n => simpa [hget, htr] using h
      | arr xs => simpa [hget, htr] using h
      | obj fs => simpa [hget, htr] using h
    · simpa [hget, htr] using h

/-- The receive loop preserves the correlation invariant at the minted id
across any sequence of kiosk replies. -/
theorem foldl_handle_kiosk_message_inv (msgs : List Json) (tbl : PendingTable) (rid : String)
    (h : alGet tbl rid = some .pending ∨
      ∃ r, alGet tbl rid = some (.done r) ∧ r.get "request_id" = some (.str rid)) :
    alGet (msgs.foldl handle_kiosk_message tbl) rid = some .pending ∨
      ∃ r, alGet (msgs.foldl handle_kiosk_message tbl) rid = some (.done r) ∧
        r.get "request_id" = some (.str rid) := by
  induction msgs generalizing tbl with
  | nil => exact h
  | cons msg rest ih => exact ih _ (handle_kiosk_message_inv tbl msg rid h)

/-- C1: on a connected kiosk, with a freshly minted request id, the value
returned by send_and_wait is either a kiosk reply whose request_id field
equals the minted id, or none (timeout, or send error); and on every exit
path the minted id has been removed from the correlation table. -/
theorem send_and_wait_correlation (st : ServerState) (kiosk_id : String) (message : Dict)
    (rid : String) (sendOk : Bool) (msgs : List Json)
    (hconn : is_connected st kiosk_id = true)
    (_hfresh : alGet st.pending_responses rid = none) :
    (∀ r, (send_and_wait st kiosk_id message rid sendOk msgs).1 = some r →
        r.get "request_id" = some (.str rid)) ∧
    alGet (send_and_wait st kiosk_id message rid sendOk msgs).2.1.pending_responses rid
      = none := by
  obtain ⟨w, hw⟩ : ∃ w, alGet st.active_connections kiosk_id = some w := by
    cases hg : alGet st.active_connections kiosk_id with
    | none => rw [is_connected, hg] at hconn; simp at hconn
    | some w => exact ⟨w, rfl⟩
  cases sendOk with
  | false =>
    constructor
    · intro r hr
      simp [send_and_wait, hw] at hr
    · simp [send_and_wait, hw, alGet_alErase_self]
  | true =>
    have hstart : alGet (alSet st.pending_responses rid .pending) rid = some .pending :=
      alGet_alSet_self _ _ _
    have hinv := foldl_handle_kiosk_message_inv msgs
      (alSet st.pending_responses rid .pending) rid (Or.inl hstart)
    rcases hinv with hp | ⟨r, hd, hr⟩
    · constructor
      · intro r hr
        simp [send_and_wait, hw, hp] at hr
      · simp [send_and_wait, hw, hp, alGet_alErase_self]
    · constructor
      · intro r0 hr0
        simp [send_and_wait, hw, hd] at hr0
        rw [← hr0]
        exact hr
      · simp [send_and_wait, hw, hd, alGet_alErase_self]

/-- C1 witness: a connected kiosk whose reply carries the minted id is
returned, and the slot is gone afterwards. -/
theorem send_and_wait_correlation_witness :
    (∀ r, (send_and_wait ⟨[("k1", ⟨0, false⟩)], [], []⟩ "k1" [] "r1" true
        [Json.obj [("request_id", Json.str "r1"), ("status", Json.str "ok")]]).1 = some r →
      r.get "request_id" = some (.str "r1")) ∧
    alGet (send_and_wait ⟨[("k1", ⟨0, false⟩)], [], []⟩ "k1" [] "r1" true
        [Json.obj [("request_id", Json.str "r1"), ("status", Json.str "ok")]]).2.1.pending_responses
      "r1" = none :=
  send_and_wait_correlation _ _ _ _ _ _ rfl rfl

/-- Helper: after markOnline the kiosk is in the online set. -/
theorem markOnline_mem (online : List String) (k : String) :
    k ∈ markOnline online k := by
  unfold markOnline
  by_cases h : k ∈ online <;> simp [h]

/-- Helper: the envelope actually sent over the socket (the caller's
message dict after the call) is the input dict with request_id set,
whenever the kiosk is connected. -/
theorem send_and_wait_sent (st : ServerState) (kiosk_id : String) (message : Dict)
    (rid : String) (sendOk : Bool) (msgs : List Json)
    (hconn : is_connected st kiosk_id = true) :
    (send_and_wait st kiosk_id message rid sendOk msgs).2.2
      = alSet message "request_id" (.str rid) := by
  obtain ⟨w, hw⟩ : ∃ w, alGet st.active_connections kiosk_id = some w := by
    cases hg : alGet st.active_connections kiosk_id with
    | none => rw [is_connected, hg] at hconn; simp at hconn
    | some w => exact ⟨w, rfl⟩
  cases sendOk with
  | false => simp [send_and_wait, hw]
  | true =>
    cases halg : alGet (List.foldl handle_kiosk_message
        (alSet st.pending_responses rid .pending) msgs) rid with
    | none => simp [send_and_wait, hw, halg]
    | some fs =>
      cases fs with
      | pending => simp [send_and_wait, hw, halg]
      | done r => simp [send_and_wait, hw, halg]

/-- Helper: a single kiosk reply carrying the minted id resolves the
wait and send_and_wait returns that reply. -/
theorem send_and_wait_delivers (st : ServerState) (kiosk_id : String) (message : Dict)
    (rid : String) (r : Json)
    (hconn : is_connected st kiosk_id = true)
    (hrid : r.get "request_id" = some (.str rid))
    (hrid0 : ¬ rid = "") :
    (send_and_wait st kiosk_id message rid true [r]).1 = some r := by
  obtain ⟨w, hw⟩ : ∃ w, alGet st.active_connections kiosk_id = some w := by
    cases hg : alGet st.active_connections kiosk_id with
    | none => rw [is_connected, hg] at hconn; simp at hconn
    | some w => exact ⟨w, rfl⟩
  have hres : List.foldl handle_kiosk_message (alSet st.pending_responses rid .pending) [r]
      = alSet (alSet st.pending_responses rid .pending) rid (.done r) := by
    simp [List.foldl, handle_kiosk_message, hrid, pyTruthy, hrid0, alGet_alSet_self]
  simp [send_and_wait, hw, hres, alGet_alSet_self]

/-- C2: when the kiosk reply r carries the minted request id, the HTTP
/send response body is exactly r, all of its fields preserved, with
nothing added, removed or rewritten. -/
theorem send_response_verbatim (env : AuthEnv) (st : ServerState)
    (reqHeaders : List (String × String)) (body : Json) (rid k : String) (r : Json)
    (hk : alGet reqHeaders "header-kiosk-id" = some k)
    (hk0 : ¬ k = "")
    (hex : env.kioskExists k = true)
    (hen : env.kioskEnabled k = true)
    (hconn : is_connected st k = true)
    (hrid : r.get "request_id" = some (.str rid))
    (hrid0 : ¬ rid = "") :
    (send_message env st reqHeaders body rid true [r]).1 = HttpResult.ok r := by
  have hsw := send_and_wait_delivers st k
    [("headers", headersJson (redactHeaders reqHeaders)), ("body", body)] rid r hconn hrid hrid0
  rcases hsw3 : send_and_wait st k
      [("headers", headersJson (redactHeaders reqHeaders)), ("body", body)] rid true [r]
    with ⟨res, st2, sent⟩
  rw [hsw3] at hsw
  simp only at hsw
  subst hsw
  unfold send_message
  rw [hk]
  simp [hk0, hex, hen, hconn, hsw3]

/-- C2 witness: a concrete kiosk reply with three fields is returned to
the HTTP caller verbatim. -/
theorem send_response_verbatim_witness :
    (send_message ⟨fun _ => none, fun _ => true, fun _ => true, fun _ => none⟩
      ⟨[("k1", ⟨0, false⟩)], [], []⟩ [("header-kiosk-id", "k1")] Json.null "r1"
      true
      [Json.obj [("request_id", Json.str "r1"), ("status", Json.str "ok"),
                 ("transaction_id", Json.str "T1")]]).1
      = HttpResult.ok (Json.obj [("request_id", Json.str "r1"), ("status", Json.str "ok"),
                 ("transaction_id", Json.str "T1")]) :=
  send_response_verbatim _ _ _ _ _ _ _ rfl (by decide) rfl rfl rfl rfl (by decide)

/-- C3: with allow_duplicate false and an existing entry, an alive old
socket makes connect close the new socket with code 1008 and leave the
whole state unchanged; a dead old socket is replaced: the new socket is
installed as the entry and the kiosk is marked online. -/
theorem connect_duplicate_policy (st : ServerState) (w old : WS) (k : String)
    (hold : alGet st.active_connections k = some old) :
    (old.closedState = false →
      connect false st w k = (false, st, [⟨w, some 1008, some "Kiosk already connected"⟩])) ∧
    (old.closedState = true →
      (connect false st w k).1 = true ∧
      alGet (connect false st w k).2.1.active_connections k = some w ∧
      (connect false st w k).2.1.online.contains k = true) := by
  constructor
  · intro h
    simp [connect, hold, h]
  · intro h
    refine ⟨?_, ?_, ?_⟩
    · simp [connect, hold, h]
    · simp [connect, hold, h, alGet_alSet_self]
    · simp [connect, hold, h, markOnline_mem]

/-- C3 witness: an alive duplicate is rejected with 1008 and the state,
including the existing entry, is unchanged. -/
theorem connect_duplicate_policy_witness :
    connect false ⟨[("k1", ⟨0, false⟩)], [], []⟩ ⟨1, false⟩ "k1"
      = (false, ⟨[("k1", ⟨0, false⟩)], [], []⟩,
         [⟨⟨1, false⟩, some 1008, some "Kiosk already connected"⟩]) :=
  (connect_duplicate_policy ⟨[("k1", ⟨0, false⟩)], [], []⟩ ⟨1, false⟩ ⟨0, false⟩ "k1" rfl).1 rfl

/-- C4: for an accepted /send request, the headers map placed in the
forwarded tunnel envelope is the incoming ASGI header map (lowercase
names) with every sensitive value replaced by the redaction literal and
every other value passed through unchanged. -/
theorem redacted_headers_forwarded (env : AuthEnv) (st : ServerState)
    (reqHeaders : List (String × String)) (body : Json) (rid : String)
    (sendOk : Bool) (msgs : List Json) (k : String)
    (hk : alGet reqHeaders "header-kiosk-id" = some k)
    (hk0 : ¬ k = "")
    (hex : env.kioskExists k = true)
    (hen : env.kioskEnabled k = true)
    (hconn : is_connected st k = true)
    (hlower : ∀ p ∈ reqHeaders, pyLower p.1 = p.1) :
    alGet (send_message env st reqHeaders body rid sendOk msgs).2.2 "headers"
      = some (headersJson (redactHeaders reqHeaders)) ∧
    (∀ p ∈ redactHeaders reqHeaders, pyLower p.1 = p.1) ∧
    redactHeaders reqHeaders = reqHeaders.map (fun p =>
      (p.1, if p.1 ∈ SENSITIVE_HEADERS then "***REDACTED***" else p.2)) := by
  refine ⟨?_, ?_, ?_⟩
  · have hsent := send_and_wait_sent st k
      [("headers", headersJson (redactHeaders reqHeaders)), ("body", body)] rid sendOk msgs hconn
    rcases hsw3 : send_and_wait st k
        [("headers", headersJson (redactHeaders reqHeaders)), ("body", body)] rid sendOk msgs
      with ⟨res, st2, sent⟩
    rw [hsw3] at hsent
    simp only at hsent
    unfold send_message
    rw [hk]
    simp only [hk0, hex, hen, hconn, if_false, ite_false, Bool.not_eq_true] at *
    have hne : "headers" ≠ "request_id" := by decide
    cases res with
    | none =>
      simp [hk0, hex, hen, hconn, hsw3, hsent, alGet_alSet_ne _ _ _ _ hne, alGet]
    | some rr =>
      simp [hk0, hex, hen, hconn, hsw3, hsent, alGet_alSet_ne _ _ _ _ hne, alGet]
  · intro p hp
    rcases List.mem_map.1 hp with ⟨q, hq, rfl⟩
    exact hlower q hq
  · apply List.map_eq_map_iff.mpr
    intro p hp
    rw [hlower p hp]
    by_cases hmem : p.1 ∈ SENSITIVE_HEADERS
    · have hc : SENSITIVE_HEADERS.contains p.1 = true := List.elem_iff.mpr hmem
      simp [hc, hmem]
    · have hc : SENSITIVE_HEADERS.contains p.1 = false := by
        rw [Bool.eq_false_iff]
        intro hcc
        exact hmem (List.elem_iff.mp hcc)
      simp [hc, hmem]

/-- C4 witness: an authorization header is forwarded redacted while a
content-type header passes through, inside the forwarded envelope. -/
theorem redacted_headers_forwarded_witness :
    alGet (send_message ⟨fun _ => none, fun _ => true, fun _ => true, fun _ => none⟩
      ⟨[("k1", ⟨0, false⟩)], [], []⟩
      [("header-kiosk-id", "k1"), ("authorization", "Bearer secret"),
       ("content-type", "application/json")] Json.null "r1" true []).2.2 "headers"
      = some (headersJson (redactHeaders
          [("header-kiosk-id", "k1"), ("authorization", "Bearer secret"),
           ("content-type", "application/json")])) ∧
    (∀ p ∈ redactHeaders
        [("header-kiosk-id", "k1"), ("authorization", "Bearer secret"),
         ("content-type", "application/json")], pyLower p.1 = p.1) ∧
    redactHeaders
        [("header-kiosk-id", "k1"), ("authorization", "Bearer secret"),
         ("content-type", "application/json")]
      = [("header-kiosk-id", "k1"), ("authorization", "Bearer secret"),
         ("content-type", "application/json")].map (fun p =>
        (p.1, if p.1 ∈ SENSITIVE_HEADERS then "***REDACTED***" else p.2)) :=
  redacted_headers_forwarded _ _ _ _ _ _ _ _ rfl (by decide) rfl rfl rfl (by decide)

/-- Helper: a connect whose first component is false leaves the state
unchanged. -/
theorem connect_rejected_state (a : Bool) (st : ServerState) (w : WS) (k : String)
    (h : (connect a st w k).1 = false) : (connect a st w k).2.1 = st := by
  cases hg : alGet st.active_connections k with
  | none => simp [connect, hg] at h
  | some old =>
    cases a with
    | true => simp [connect, hg] at h
    | false =>
      by_cases hcl : old.closedState = true
      · simp [connect, hg, hcl] at h
      · simp [connect, hg, hcl]

/-- C9: every rejected handshake (invalid token, unknown kiosk, disabled
kiosk, stored-token mismatch, or duplicate rejection) leaves the server
state unchanged: the active-connections entry for the kiosk is exactly
what it was and the kiosk is not marked online. -/
theorem handshake_rejection_keeps_state (env : AuthEnv) (allowDup : Bool)
    (st : ServerState) (w : WS) (tok : String)
    (h : ¬ (handle_websocket_handshake env allowDup st w tok).1 = HandshakeOutcome.accepted) :
    (handle_websocket_handshake env allowDup st w tok).2.1 = st := by
  cases hv : env.verifyToken tok with
  | none => simp [handle_websocket_handshake, hv]
  | some kid =>
    by_cases h1 : kid = ""
    · simp [handle_websocket_handshake, hv, h1]
    · by_cases h2 : env.kioskExists kid = true
      · by_cases h3 : env.kioskEnabled kid = true
        · by_cases h4 : env.storedToken kid = some tok
          · rcases hc : connect allowDup st w kid with ⟨fst, st1, acts⟩
            cases fst with
            | true =>
              exfalso
              apply h
              simp [handle_websocket_handshake, hv, h1, h2, h3, h4, hc]
            | false =>
              have hst := connect_rejected_state allowDup st w kid (by rw [hc])
              rw [hc] at hst
              simp only at hst
              simp [handle_websocket_handshake, hv, h1, h2, h3, h4, hc, hst]
          · simp [handle_websocket_handshake, hv, h1, h2, h3, h4]
        · simp [handle_websocket_handshake, hv, h1, h2, h3]
      · simp [handle_websocket_handshake, hv, h1, h2]

/-- C9 witness: an invalid token is rejected and the state is returned
untouched. -/
theorem handshake_rejection_keeps_state_witness :
    (handle_websocket_handshake ⟨fun _ => none, fun _ => true, fun _ => true, fun _ => none⟩
      false ⟨[], [], []⟩ ⟨1, false⟩ "t").2.1 = (⟨[], [], []⟩ : ServerState) :=
  handshake_rejection_keeps_state _ _ _ _ _ (by decide)

/-- C10: after a send_and_wait call on a connected kiosk, the caller's
message dict holds the minted request id under the request_id key (the
envelope is updated in place before sending) while every other field is
unchanged. -/
theorem send_and_wait_mutates_caller_message (st : ServerState) (kiosk_id : String)
    (message : Dict) (rid : String) (sendOk : Bool) (msgs : List Json)
    (hconn : is_connected st kiosk_id = true) :
    alGet (send_and_wait st kiosk_id message rid sendOk msgs).2.2 "request_id"
      = some (Json.str rid) ∧
    ∀ key, ¬ key = "request_id" →
      alGet (send_and_wait st kiosk_id message rid sendOk msgs).2.2 key
        = alGet message key := by
  rw [send_and_wait_sent st kiosk_id message rid sendOk msgs hconn]
  exact ⟨alGet_alSet_self _ _ _, fun key hkey => alGet_alSet_ne _ _ _ _ hkey⟩

/-- C10 witness: a concrete envelope gains request_id r1 while its body
field is untouched. -/
theorem send_and_wait_mutates_caller_message_witness :
    alGet (send_and_wait ⟨[("k1", ⟨0, false⟩)], [], []⟩ "k1" [("body", Json.null)]
      "r1" true []).2.2 "request_id" = some (Json.str "r1") ∧
    ∀ key, ¬ key = "request_id" →
      alGet (send_and_wait ⟨[("k1", ⟨0, false⟩)], [], []⟩ "k1" [("body", Json.null)]
        "r1" true []).2.2 key = alGet [("body", Json.null)] key :=
  send_and_wait_mutates_caller_message _ _ _ _ _ _ rfl

end WsGateway
